import Mathlib

/-!
Shallow embedding of the copr dist-git importer core
(dist-git/dist_git/dist_git_importer.py) and of the custom-script
rpmbuild provider (rpmbuild/copr_rpmbuild/providers/custom.py),
together with theorems settling the specification claims.

Conventions of the embedding:
* a Python function that can raise becomes a Lean function into Except
  (or a pair with an Option error component when the partial trace matters);
* outcomes of external subprocesses and of the network are inputs of the
  embedded functions (the code only branches on them);
* the filesystem state relevant to a claim is carried explicitly
  (lists of file names, existence flags for temporary directories).
-/

namespace DistGit

/-- Modelled from the spec: the FailTypeEnum values of the helpers module
(not part of the sources given here); only the four values constructed in
dist_git_importer.py are needed. -/
inductive FailTypeEnum
  | git_clone_failed
  | tito_wrong_directory_in_git
  | tito_git_checkout_error
  | tito_srpm_build_error
deriving DecidableEq, Repr

/-- Modelled from the spec: the short machine-readable strings by which the
fail types are surfaced in failure payloads (section 7 of the spec). -/
def failTypeString : FailTypeEnum → String
  | .git_clone_failed => "git_clone_failed"
  | .tito_wrong_directory_in_git => "tito_wrong_directory_in_git"
  | .tito_git_checkout_error => "tito_git_checkout_error"
  | .tito_srpm_build_error => "tito_srpm_build_error"

/-! ## String primitives

The embedding works on the character lists underlying strings, with
structural recursion, so that every definition evaluates inside the
kernel on concrete inputs. -/

/-- Splitting a character list at every character satisfying p, keeping
empty pieces — the semantics shared by Python str.split(sep) (with p the
comparison against sep) and of splitting on whitespace characters. -/
def splitAtChars (p : Char → Bool) : List Char → List (List Char)
  | [] => [[]]
  | c :: cs =>
    match splitAtChars p cs with
    | [] => [[c]]
    | r :: rs => if p c then [] :: r :: rs else (c :: r) :: rs

/-- Python str.split(sep) for a one-character separator: split at every
occurrence, keeping empty fields. -/
def pySplit (s : String) (sep : Char) : List String :=
  (splitAtChars (fun c => c == sep) s.data).map (fun l => String.mk l)

/-- Python str.endswith. -/
def pyEndsWith (s : String) (suffix : String) : Bool :=
  List.isPrefixOf suffix.data.reverse s.data.reverse

/-- Python str.isdigit on the ascii fragment: nonempty and all characters
are decimal digits. -/
def pyIsDigit (s : String) : Bool :=
  !s.data.isEmpty && s.data.all Char.isDigit

/-! ## GitProvider.copy (the extraction step) -/

/-- GitProvider.copy: list the build-output directory, keep the files whose
name ends with ".src.rpm"; exactly one is required, else
GitAndTitoException(tito_srpm_build_error) is raised.  On success the chosen
file name (the one copied to target_path) is returned. -/
def copyStep (destFiles : List String) : Except FailTypeEnum String :=
  let destSrpms := destFiles.filter (fun f => pyEndsWith f ".src.rpm")
  match destSrpms with
  | [srpmName] => Except.ok srpmName
  | _ => Except.error FailTypeEnum.tito_srpm_build_error

/-! ## GitProvider.get_srpm (the clone/checkout/build/copy/clean pipeline) -/

/-- Outcomes of the external steps of one GitProvider.get_srpm run:
for clone, checkout and build, the exception the stage raises (none means
the stage returned normally); destFiles is the listing of the build-output
directory at the time copy() runs. -/
structure GitRun where
  cloneOutcome : Option FailTypeEnum
  checkoutOutcome : Option FailTypeEnum
  buildOutcome : Option FailTypeEnum
  destFiles : List String
deriving Repr

/-- Existence flags for the two temporary directories a GitProvider
allocates in its constructor: (tmp still exists, tmp_dest still exists). -/
abbrev DirsState := Bool × Bool

/-- GitProvider.get_srpm: clone(); checkout(); build(); copy(); clean().
Each stage raise propagates immediately; clean() (which removes tmp and
tmp_dest) is the last statement and runs only when all previous stages
returned normally.  The result pairs the raised-or-returned outcome with
the final existence state of (tmp, tmp_dest), both allocated (true) at
entry. -/
def gitGetSrpm (r : GitRun) : Except FailTypeEnum Unit × DirsState :=
  match r.cloneOutcome with
  | some e => (Except.error e, (true, true))
  | none =>
    match r.checkoutOutcome with
    | some e => (Except.error e, (true, true))
    | none =>
      match r.buildOutcome with
      | some e => (Except.error e, (true, true))
      | none =>
        match copyStep r.destFiles with
        | Except.error e => (Except.error e, (true, true))
        | Except.ok _ => (Except.ok (), (false, false))

/-! ## DistGitImporter.pkg_name_evr (the package inspector) -/

/-- The unpacking of "name, epoch, version, release = output.split(\" \")"
followed by the epoch formatting: a list of exactly four fields succeeds,
anything else raises PackageQueryException (the ValueError branch); a
digit epoch yields the colon form, any other epoch (in particular the
"(none)" sentinel) the plain form. -/
def evrOfFields : List String → Except Unit (String × String)
  | [name, epoch, version, release] =>
    if pyIsDigit epoch then
      Except.ok (name, epoch ++ ":" ++ version ++ "-" ++ release)
    else
      Except.ok (name, version ++ "-" ++ release)
  | _ => Except.error ()

/-- DistGitImporter.pkg_name_evr as a function of the query-tool output
(the case where the tool ran and printed nothing on stderr): the output is
split on single space characters — Python output.split(" ") — and the four
fields are formatted into (name, evr). -/
def pkg_name_evr (output : String) : Except Unit (String × String) :=
  evrOfFields (pySplit output ' ')

/-- Following the specification wording only (for comparison with the
code): the whitespace-delimited tokens of the query output. -/
def specTokens (s : String) : List String :=
  ((splitAtChars Char.isWhitespace s.data).filter (fun l => !l.isEmpty)).map
    (fun l => String.mk l)

/-! ## SrpmUrlProvider.get_srpm -/

/-- Outcome of one HTTP GET: the call raises (transport failure) or
returns a response bearing a status code. -/
inductive FetchOutcome
  | transportFailure
  | response (status : Nat)
deriving DecidableEq, Repr

/-- The PackageDownloadException cases of SrpmUrlProvider.get_srpm. -/
inductive DownloadErr
  | fetchFailed
  | writeFailed
  | badStatus (status : Nat)
deriving DecidableEq, Repr

/-- SrpmUrlProvider.get_srpm: one call of requests.get on the package URL
(the fetch stream models the successive outcomes the network would give to
successive attempts; the code performs a single attempt, consuming
position 0), then, when 200 <= status < 400, the chunked write to
target_path (writeOk), every failure mapped to PackageDownloadException.
The second component counts the fetch attempts performed. -/
def srpmUrlGetSrpm (fetches : Nat → FetchOutcome) (writeOk : Bool) :
    Except DownloadErr Unit × Nat :=
  match fetches 0 with
  | FetchOutcome.transportFailure => (Except.error DownloadErr.fetchFailed, 1)
  | FetchOutcome.response s =>
    if 200 ≤ s ∧ s < 400 then
      if writeOk then (Except.ok (), 1) else (Except.error DownloadErr.writeFailed, 1)
    else
      (Except.error (DownloadErr.badStatus s), 1)

/-! ## GitAndTitoProvider.build -/

/-- Outcome of a Popen + communicate call: the launch raises OSError, or
the process finishes with a return code and some stderr output. -/
inductive ProcOutcome
  | launchFailure
  | finished (returncode : Int) (stderrOutput : String)
deriving DecidableEq, Repr

/-- The tito command line built by GitAndTitoProvider.build: the --test
flag is appended exactly when task.tito_test is truthy. -/
def titoBuildCmd (tmpDest : String) (titoTest : Bool) : List String :=
  ["tito", "build", "-o", tmpDest, "--srpm"] ++ (if titoTest then ["--test"] else [])

/-- GitAndTitoProvider.build: an OSError at launch raises
GitAndTitoException(tito_srpm_build_error); afterwards the code tests
"if error:" — nonempty stderr — and raises the same exception; the return
code is never examined. -/
def titoBuild (p : ProcOutcome) : Except FailTypeEnum Unit :=
  match p with
  | ProcOutcome.launchFailure => Except.error FailTypeEnum.tito_srpm_build_error
  | ProcOutcome.finished _ err =>
    if err = "" then Except.ok () else Except.error FailTypeEnum.tito_srpm_build_error

/-! ## SourceProvider.__init__ (provider selection) -/

/-- The SourceType constants. -/
def SourceType.SRPM_LINK : Int := 1

/-- The SourceType constants. -/
def SourceType.SRPM_UPLOAD : Int := 2

/-- The SourceType constants. -/
def SourceType.GIT_AND_TITO : Int := 3

/-- The SourceType constants. -/
def SourceType.GIT_AND_MOCK : Int := 4

/-- The provider classes a task can be routed to. -/
inductive ProviderKind
  | srpmUrlProvider
  | gitAndTitoProvider
  | gitAndMockProvider
deriving DecidableEq, Repr

/-- SourceProvider.__init__: the chain of source-type comparisons choosing
self.provider; the trailing else raises PackageImportException (the
malformed-task error), modelled as Except.error (). -/
def selectProvider (sourceType : Int) : Except Unit ProviderKind :=
  if sourceType = SourceType.SRPM_LINK then Except.ok ProviderKind.srpmUrlProvider
  else if sourceType = SourceType.SRPM_UPLOAD then Except.ok ProviderKind.srpmUrlProvider
  else if sourceType = SourceType.GIT_AND_TITO then Except.ok ProviderKind.gitAndTitoProvider
  else if sourceType = SourceType.GIT_AND_MOCK then Except.ok ProviderKind.gitAndMockProvider
  else Except.error ()

/-! ## DistGitImporter.do_import and the polling loop -/

/-- The exception classes distinguished by the except clauses of
do_import: the three Package*Exception classes, GitAndTitoException
carrying a fail type, and any other exception (the generic
"except Exception" case). -/
inductive PipeExn
  | pkgImportExn
  | pkgDownloadExn
  | pkgQueryExn
  | gitTitoExn (ft : FailTypeEnum)
  | otherExn
deriving DecidableEq, Repr

/-- A payload handed to post_back / post_back_safe: the success record of
get_dict_for_frontend, or a failure record carrying an error string. -/
inductive Payload
  | success
  | failure (err : String)
deriving DecidableEq, Repr

/-- The error string each except clause of do_import puts into the failure
payload it posts. -/
def exnPayloadErr : PipeExn → String
  | PipeExn.pkgImportExn => "git_import_failed"
  | PipeExn.pkgDownloadExn => "srpm_download_failed"
  | PipeExn.pkgQueryExn => "srpm_query_failed"
  | PipeExn.gitTitoExn ft => failTypeString ft
  | PipeExn.otherExn => "unknown_error"

/-- Outcomes of the stages run inside the try block of do_import for one
task, in program order: the exception each stage raises (none means it
returned normally), and whether the final success post_back call itself
raises a network-level exception. -/
structure DoImportWorld where
  getSrpmExn : Option PipeExn
  queryExn : Option PipeExn
  beforeImportExn : Option PipeExn
  gitImportExn : Option PipeExn
  afterImportExn : Option PipeExn
  successPostRaises : Bool
deriving DecidableEq, Repr

/-- The try block of do_import: run the stages in order; the first raised
exception escapes the block.  The first component lists the payloads
posted inside the block (only the success post_back call posts there; its
payload is produced, and counted, even when sending it then raises).  The
second component is the exception escaping the block, if any; a raising
success post escapes as a generic (network) exception. -/
def tryBody (w : DoImportWorld) : List Payload × Option PipeExn :=
  match w.getSrpmExn with
  | some e => ([], some e)
  | none =>
    match w.queryExn with
    | some e => ([], some e)
    | none =>
      match w.beforeImportExn with
      | some e => ([], some e)
      | none =>
        match w.gitImportExn with
        | some e => ([], some e)
        | none =>
          match w.afterImportExn with
          | some e => ([], some e)
          | none =>
            if w.successPostRaises then
              ([Payload.success], some PipeExn.otherExn)
            else
              ([Payload.success], none)

/-- do_import: the try block, then the except clauses.  Every escaping
exception is matched by one clause (the last clause catches every
exception) and handled by a post_back_safe of the corresponding failure
payload; post_back_safe itself never raises.  The result is the list of
payloads posted for the task, in order. -/
def doImport (w : DoImportWorld) : List Payload :=
  match tryBody w with
  | (ps, none) => ps
  | (ps, some e) => ps ++ [Payload.failure (exnPayloadErr e)]

/-- DistGitImporter.run: while is_running: poll; on no task sleep, else
do_import.  The stop argument tells, per iteration, whether a stop request
has cleared is_running before that iteration; polls gives the world of the
task polled at that iteration (none = empty queue).  Fuel bounds the
number of iterations observed: none means the loop was still running when
the fuel ran out; some trace means the loop halted (a stop request) after
posting the listed payloads per iteration. -/
def runLoop : Nat → (Nat → Bool) → (Nat → Option DoImportWorld) → Nat →
    Option (List (List Payload))
  | 0, _, _, _ => none
  | Nat.succ fuel, stop, polls, i =>
    if stop i then some [] else
      let posted := match polls i with
        | none => []
        | some w => doImport w
      (runLoop fuel stop polls (i + 1)).map (fun rest => posted :: rest)

/-! ## ImportTask.from_dict and try_to_obtain_new_task -/

/-- The decoded source_json document: the keys from_dict may read, each
present or absent. -/
structure SourceData where
  git_url : Option String
  git_branch : Option String
  url : Option String
  tmp : Option String
  pkg : Option String
  git_dir : Option String
  tito_test : Option Bool
deriving DecidableEq, Repr

/-- One job dictionary from the builds list: each top-level key present or
absent (absence makes the subscript raise KeyError), and the source_json
string, whose parse either fails (json.loads raises) or yields a
SourceData. -/
structure RawJob where
  task_id : Option String
  user : Option String
  project : Option String
  branch : Option String
  source_type : Option Int
  source_json : Option (Option SourceData)
deriving DecidableEq, Repr

/-- The fields of an ImportTask populated by from_dict. -/
structure ImportTask where
  task_id : String
  user : String
  project : String
  branch : String
  source_type : Int
  package_url : Option String
  git_url : Option String
  git_branch : Option String
  tito_git_dir : Option String
  tito_test : Option Bool
  mock_git_dir : Option String
deriving DecidableEq, Repr

/-- Reading a required key: absence raises (KeyError or, for the parsed
source document, the json.loads failure), modelled as Except.error (). -/
def requireKey {α : Type} : Option α → Except Unit α
  | some a => Except.ok a
  | none => Except.error ()

/-- ImportTask.from_dict: reads the envelope keys, parses source_json,
then branches on source_type filling the type-specific fields; an unknown
source type raises PackageImportException.  Every raise is collapsed to
Except.error () since try_to_obtain_new_task treats all of them alike. -/
def fromDict (j : RawJob) (frontendBaseUrl : String) : Except Unit ImportTask := do
  let tid ← requireKey j.task_id
  let user ← requireKey j.user
  let project ← requireKey j.project
  let branch ← requireKey j.branch
  let stype ← requireKey j.source_type
  let rawJson ← requireKey j.source_json
  let sdata ← requireKey rawJson
  let base : ImportTask :=
    { task_id := tid, user := user, project := project, branch := branch,
      source_type := stype, package_url := none, git_url := none,
      git_branch := none, tito_git_dir := none, tito_test := none,
      mock_git_dir := none }
  let base ←
    if stype = SourceType.GIT_AND_TITO ∨ stype = SourceType.GIT_AND_MOCK then do
      let gu ← requireKey sdata.git_url
      let gb ← requireKey sdata.git_branch
      pure { base with git_url := some gu, git_branch := some gb }
    else
      pure base
  if stype = SourceType.SRPM_LINK then do
    let u ← requireKey sdata.url
    pure { base with package_url := some u }
  else if stype = SourceType.SRPM_UPLOAD then do
    let t ← requireKey sdata.tmp
    let p ← requireKey sdata.pkg
    let resolved := frontendBaseUrl ++ "/tmp/" ++ t ++ "/" ++ p
    pure { base with package_url := some resolved }
  else if stype = SourceType.GIT_AND_TITO then do
    let gd ← requireKey sdata.git_dir
    let tt ← requireKey sdata.tito_test
    pure { base with tito_git_dir := some gd, tito_test := some tt }
  else if stype = SourceType.GIT_AND_MOCK then do
    let gd ← requireKey sdata.git_dir
    pure { base with mock_git_dir := some gd, tito_git_dir := some gd }
  else
    Except.error ()

/-- Outcome of the poll of the importing endpoint: the GET or the json
decoding of the response raises, or a builds list is obtained. -/
inductive QueueResp
  | netError
  | builds (jobs : List RawJob)
deriving DecidableEq, Repr

/-- DistGitImporter.try_to_obtain_new_task: any exception inside the try
(network, response shape, from_dict) is logged and swallowed, returning
None; an empty builds list also returns None; otherwise the first job is
decoded. -/
def tryToObtainNewTask (resp : QueueResp) (frontendBaseUrl : String) :
    Option ImportTask :=
  match resp with
  | QueueResp.netError => none
  | QueueResp.builds [] => none
  | QueueResp.builds (j :: _) =>
    match fromDict j frontendBaseUrl with
    | Except.ok t => some t
    | Except.error _ => none

/-- The payloads posted during one iteration of the polling loop, given
the poll outcome and (when a task was obtained) the stage outcomes of its
do_import run: a None from try_to_obtain_new_task makes the loop sleep and
post nothing. -/
def iterationPayloads (resp : QueueResp) (frontendBaseUrl : String)
    (outcomes : DoImportWorld) : List Payload :=
  match tryToObtainNewTask resp frontendBaseUrl with
  | none => []
  | some _ => doImport outcomes

/-! ## CustomProvider.produce_srpm (rpmbuild custom-script provider) -/

/-- The externally observable events of one produce_srpm run, in order:
writing the mock configuration file, the completed streaming download of
the webhook payload, and each subprocess invocation touching the sandbox
(the copr-sources-custom preparation run, mock --copyout, mock --scrub,
and the final SRPM build over the staged sources). -/
inductive CEvent
  | mockConfigWrite
  | hookDownloadSuccess
  | sandboxInvocation (step : String)
deriving DecidableEq, Repr

/-- The aborting errors of produce_srpm: the requests.get call raises
(transport), response.raise_for_status raises HTTPError, or one of the
subprocess steps fails (helpers.run_cmd / helpers.build_srpm raising). -/
inductive CustomErr
  | downloadTransport
  | downloadStatus (status : Nat)
  | cmdFailed (step : String)
deriving DecidableEq, Repr

/-- requests.Response.raise_for_status: raises HTTPError exactly for the
4xx client-error and 5xx server-error status ranges. -/
def raiseForStatus (status : Nat) : Bool :=
  decide (400 ≤ status ∧ status < 600)

/-- Outcomes of the external interactions of one produce_srpm run:
whether a hook_data payload URL was configured, the outcome of its GET,
and the success of each subsequent subprocess step. -/
structure CustomWorld where
  hasHookPayload : Bool
  hookFetch : FetchOutcome
  prepOk : Bool
  copyoutOk : Bool
  scrubOk : Bool
  buildSrpmOk : Bool
deriving DecidableEq, Repr

/-- The tail of produce_srpm after the payload handling: the
source-preparation run inside the sandbox, the copy-out of the result
directory, the scrub of the sandbox, and the SRPM build from the staged
sources; each step is invoked, then its failure aborts the run.  Returns
the events of these stages and the aborting error, if any. -/
def produceRestEvents (w : CustomWorld) : List CEvent × Option CustomErr :=
  let ev1 := [CEvent.sandboxInvocation "copr-sources-custom"]
  if !w.prepOk then (ev1, some (CustomErr.cmdFailed "copr-sources-custom")) else
  let ev2 := ev1 ++ [CEvent.sandboxInvocation "mock-copyout"]
  if !w.copyoutOk then (ev2, some (CustomErr.cmdFailed "mock-copyout")) else
  let ev3 := ev2 ++ [CEvent.sandboxInvocation "mock-scrub"]
  if !w.scrubOk then (ev3, some (CustomErr.cmdFailed "mock-scrub")) else
  let ev4 := ev3 ++ [CEvent.sandboxInvocation "build-srpm"]
  if !w.buildSrpmOk then (ev4, some (CustomErr.cmdFailed "build-srpm")) else
  (ev4, none)

/-- CustomProvider.produce_srpm: writes the mock configuration, then, when
a hook payload URL is present, performs the streaming GET with
raise_for_status and writes the payload file to completion — all before
the first sandbox invocation — and only then runs the preparation and
extraction steps.  Returns the event trace up to the first failure and
the aborting error, if any. -/
def produceSrpm (w : CustomWorld) : List CEvent × Option CustomErr :=
  let ev0 := [CEvent.mockConfigWrite]
  if w.hasHookPayload then
    match w.hookFetch with
    | FetchOutcome.transportFailure => (ev0, some CustomErr.downloadTransport)
    | FetchOutcome.response s =>
      if raiseForStatus s then (ev0, some (CustomErr.downloadStatus s))
      else
        let rest := produceRestEvents w
        (ev0 ++ [CEvent.hookDownloadSuccess] ++ rest.1, rest.2)
  else
    let rest := produceRestEvents w
    (ev0 ++ rest.1, rest.2)

/-- Whether an event is a sandbox invocation. -/
def isSandboxInv : CEvent → Bool
  | CEvent.sandboxInvocation _ => true
  | _ => false

/-- The first exception raised by the pipeline stages of do_import (not
counting the success post), in program order. -/
def firstStageExn (w : DoImportWorld) : Option PipeExn :=
  match w.getSrpmExn with
  | some e => some e
  | none =>
    match w.queryExn with
    | some e => some e
    | none =>
      match w.beforeImportExn with
      | some e => some e
      | none =>
        match w.gitImportExn with
        | some e => some e
        | none => w.afterImportExn

end DistGit

namespace DistGit

/-! ## Theorems settling the claims -/

/-- Claim C1, as stated, is refuted: gitGetSrpm has no unconditional
cleanup; when the clone stage raises git_clone_failed, get_srpm returns by
raising and both the scratch directory (tmp) and the build-output
directory (tmp_dest) still exist on disk. -/
theorem claim_C1_counterexample :
    (gitGetSrpm ⟨some FailTypeEnum.git_clone_failed, none, none, []⟩).1 =
      Except.error FailTypeEnum.git_clone_failed ∧
    (gitGetSrpm ⟨some FailTypeEnum.git_clone_failed, none, none, []⟩).2 =
      (true, true) :=
  ⟨rfl, rfl⟩

/-- Claim C1 (amended): clean() is the last statement of get_srpm, so the
scratch and build-output directories are removed exactly on the success
path; whenever any stage (clone, checkout, build or copy) raises, both
directories remain on disk. -/
theorem claim_C1 (r : GitRun) :
    (∀ u, (gitGetSrpm r).1 = Except.ok u → (gitGetSrpm r).2 = (false, false)) ∧
    (∀ e, (gitGetSrpm r).1 = Except.error e → (gitGetSrpm r).2 = (true, true)) := by
  obtain ⟨co, ko, bo, df⟩ := r
  cases co with
  | some e => simp [gitGetSrpm]
  | none =>
    cases ko with
    | some e => simp [gitGetSrpm]
    | none =>
      cases bo with
      | some e => simp [gitGetSrpm]
      | none =>
        cases h : copyStep df with
        | ok v => simp [gitGetSrpm, h]
        | error e => simp [gitGetSrpm, h]

/-- Witness for claim C1: a run whose build output holds exactly one
.src.rpm file succeeds, and then both directories are gone. -/
theorem claim_C1_witness :
    (gitGetSrpm ⟨none, none, none, ["pkg-1.0-1.src.rpm"]⟩).2 = (false, false) :=
  (claim_C1 ⟨none, none, none, ["pkg-1.0-1.src.rpm"]⟩).1 () rfl

/-- Claim C2: the extraction step of GitProvider.copy succeeds, choosing
the file it copies to target_path, exactly when exactly one file of the
build-output directory ends with ".src.rpm"; with zero or several
candidates it raises the tito_srpm_build_error (ambiguous build) and
never picks one, whatever else the directory holds. -/
theorem claim_C2 (destFiles : List String) :
    (∀ name, copyStep destFiles = Except.ok name →
        destFiles.filter (fun f => pyEndsWith f ".src.rpm") = [name] ∧
        name ∈ destFiles ∧ pyEndsWith name ".src.rpm" = true) ∧
    ((destFiles.filter (fun f => pyEndsWith f ".src.rpm")).length = 1 ↔
        ∃ name, copyStep destFiles = Except.ok name) ∧
    ((destFiles.filter (fun f => pyEndsWith f ".src.rpm")).length ≠ 1 →
        copyStep destFiles = Except.error FailTypeEnum.tito_srpm_build_error) := by
  have hcs : copyStep destFiles =
      (match destFiles.filter (fun f => pyEndsWith f ".src.rpm") with
        | [srpmName] => Except.ok srpmName
        | _ => Except.error FailTypeEnum.tito_srpm_build_error) := rfl
  cases h : destFiles.filter (fun f => pyEndsWith f ".src.rpm") with
  | nil =>
    rw [h] at hcs
    simp [hcs]
  | cons a t =>
    cases t with
    | nil =>
      rw [h] at hcs
      have ha : a ∈ destFiles.filter (fun f => pyEndsWith f ".src.rpm") := by
        rw [h]; exact List.mem_singleton_self a
      have hmem := List.mem_filter.mp ha
      refine ⟨?_, ?_, ?_⟩
      · intro name hn
        rw [hcs] at hn
        cases hn
        exact ⟨rfl, hmem.1, by simpa using hmem.2⟩
      · simp [hcs]
      · intro hlen
        simp at hlen
    | cons b t2 =>
      rw [h] at hcs
      refine ⟨?_, ?_, ?_⟩
      · intro name hn
        rw [hcs] at hn
        exact absurd hn (by simp)
      · constructor
        · intro hlen
          exact absurd hlen (by simp)
        · rintro ⟨name, hn⟩
          rw [hcs] at hn
          exact absurd hn (by simp)
      · intro _
        exact hcs

/-- Witness for claim C2: with two candidate .src.rpm files the step
raises the ambiguous-build error instead of picking one. -/
theorem claim_C2_witness :
    copyStep ["a.src.rpm", "b.src.rpm"] =
      Except.error FailTypeEnum.tito_srpm_build_error :=
  (claim_C2 ["a.src.rpm", "b.src.rpm"]).2.2 (by decide)

/-- Claim C3, as stated, is refuted: the claim (with the spec) counts
whitespace-delimited tokens, but pkg_name_evr splits the query output on
single space characters only.  The output "a  1.2 3.fc40" has three
whitespace-delimited tokens, so the claim requires a QueryError; the code
splits it into four fields (the second empty), treats the empty epoch as
unset and returns (a, 1.2-3.fc40) successfully. -/
theorem claim_C3_counterexample :
    (specTokens "a  1.2 3.fc40").length = 3 ∧
    pkg_name_evr "a  1.2 3.fc40" = Except.ok ("a", "1.2-3.fc40") := by
  constructor
  · decide
  · rfl

/-- Helper: the unpacking raises on any field count other than four. -/
theorem evrOfFields_error_of_length (l : List String) (h : l.length ≠ 4) :
    evrOfFields l = Except.error () := by
  match l with
  | [] => rfl
  | [a] => rfl
  | [a, b] => rfl
  | [a, b, c] => rfl
  | [a, b, c, d] => exact absurd rfl h
  | a :: b :: c :: d :: e :: t => rfl

/-- Claim C3 (amended): pkg_name_evr raises QueryError unless splitting
the query output on single space characters yields exactly four fields
(empty fields count); on exactly four fields it returns the name together
with epoch:version-release when the epoch field is all digits, and
version-release otherwise (in particular for the unset sentinel
"(none)"); the two concrete examples of the claim hold. -/
theorem claim_C3 :
    (∀ output : String, (pySplit output ' ').length ≠ 4 →
        pkg_name_evr output = Except.error ()) ∧
    (∀ output name epoch version release,
        pySplit output ' ' = [name, epoch, version, release] →
        pkg_name_evr output =
          (if pyIsDigit epoch then
            Except.ok (name, epoch ++ ":" ++ version ++ "-" ++ release)
          else
            Except.ok (name, version ++ "-" ++ release))) ∧
    pkg_name_evr "p 0 1.2 3.fc40" = Except.ok ("p", "0:1.2-3.fc40") ∧
    pkg_name_evr "p (none) 1.2 3.fc40" = Except.ok ("p", "1.2-3.fc40") := by
  refine ⟨?_, ?_, by rfl, by rfl⟩
  · intro output h
    exact evrOfFields_error_of_length _ h
  · intro output name epoch version release h
    unfold pkg_name_evr
    rw [h]
    rfl

/-- Witness for claim C3: a three-field output raises, and a concrete
four-field output formats. -/
theorem claim_C3_witness :
    pkg_name_evr "too few fields" = Except.error () ∧
    pkg_name_evr "n 7 1.0 2" =
      (if pyIsDigit "7" then
        Except.ok ("n", "7" ++ ":" ++ "1.0" ++ "-" ++ "2")
      else
        Except.ok ("n", "1.0" ++ "-" ++ "2")) :=
  ⟨claim_C3.1 "too few fields" (by decide),
   claim_C3.2.1 "n 7 1.0 2" "n" "7" "1.0" "2" (by decide)⟩

/-- Claim C4: SrpmUrlProvider.get_srpm performs exactly one fetch attempt
(never retrying internally); it succeeds exactly when the status of that
single GET lies in [200, 400) and the chunked write succeeds; a transport
failure, a status outside [200, 400) or a write failure each raise the
matching PackageDownloadException. -/
theorem claim_C4 (fetches : Nat → FetchOutcome) (writeOk : Bool) :
    (srpmUrlGetSrpm fetches writeOk).2 = 1 ∧
    ((srpmUrlGetSrpm fetches writeOk).1 = Except.ok () ↔
      (∃ s, fetches 0 = FetchOutcome.response s ∧ 200 ≤ s ∧ s < 400) ∧
        writeOk = true) ∧
    (∀ e, (srpmUrlGetSrpm fetches writeOk).1 = Except.error e →
      (fetches 0 = FetchOutcome.transportFailure ∧ e = DownloadErr.fetchFailed) ∨
      (∃ s, fetches 0 = FetchOutcome.response s ∧ ¬(200 ≤ s ∧ s < 400) ∧
        e = DownloadErr.badStatus s) ∨
      (∃ s, fetches 0 = FetchOutcome.response s ∧ (200 ≤ s ∧ s < 400) ∧
        writeOk = false ∧ e = DownloadErr.writeFailed)) := by
  cases hf : fetches 0 with
  | transportFailure =>
    simp [srpmUrlGetSrpm, hf]
  | response s =>
    by_cases hs : 200 ≤ s ∧ s < 400
    · cases writeOk <;> simp [srpmUrlGetSrpm, hf, hs]
    · cases writeOk <;> simp [srpmUrlGetSrpm, hf, hs] <;> omega

/-- Witness for claim C4: status 200 with a working write fetches once
and succeeds. -/
theorem claim_C4_witness :
    (srpmUrlGetSrpm (fun _ => FetchOutcome.response 200) true).2 = 1 ∧
    (srpmUrlGetSrpm (fun _ => FetchOutcome.response 200) true).1 =
      Except.ok () :=
  ⟨(claim_C4 (fun _ => FetchOutcome.response 200) true).1,
   ((claim_C4 (fun _ => FetchOutcome.response 200) true).2.1).mpr
     ⟨⟨200, rfl, by decide, by decide⟩, rfl⟩⟩

/-- Claim C5, as stated, is refuted: GitAndTitoProvider.build never
examines the return code of the tito process; it raises only on a launch
failure or on nonempty stderr.  A tito run exiting with status 1 and an
empty stderr raises nothing. -/
theorem claim_C5_counterexample :
    (1 : Int) ≠ 0 ∧
    titoBuild (ProcOutcome.finished 1 "") = Except.ok () := by
  constructor
  · decide
  · rfl

/-- Claim C5 (amended): the tito build stage raises the
tito_srpm_build_error exactly on a process-launch failure or on nonempty
stderr output — the exit status is not consulted — and the --test flag is
appended to the tito invocation exactly when the task requests it. -/
theorem claim_C5 :
    (∀ p : ProcOutcome,
      titoBuild p = Except.error FailTypeEnum.tito_srpm_build_error ↔
        (p = ProcOutcome.launchFailure ∨
          ∃ rc err, p = ProcOutcome.finished rc err ∧ err ≠ "")) ∧
    (∀ tmpDest, titoBuildCmd tmpDest true =
        ["tito", "build", "-o", tmpDest, "--srpm", "--test"]) ∧
    (∀ tmpDest, titoBuildCmd tmpDest false =
        ["tito", "build", "-o", tmpDest, "--srpm"]) := by
  refine ⟨?_, fun tmpDest => rfl, fun tmpDest => rfl⟩
  intro p
  cases p with
  | launchFailure => simp [titoBuild]
  | finished rc err =>
    by_cases he : err = "" <;> simp [titoBuild, he]
    exact ⟨rc, err, ⟨rfl, rfl⟩, he⟩

/-- Witness for claim C5: a launch failure raises the build error, and a
task requesting the test flag gets it appended. -/
theorem claim_C5_witness :
    titoBuild ProcOutcome.launchFailure =
      Except.error FailTypeEnum.tito_srpm_build_error ∧
    titoBuildCmd "/tmp/dest" true =
      ["tito", "build", "-o", "/tmp/dest", "--srpm", "--test"] :=
  ⟨(claim_C5.1 ProcOutcome.launchFailure).mpr (Or.inl rfl),
   claim_C5.2.1 "/tmp/dest"⟩

/-- Claim C6, as stated, is refuted: when every pipeline stage succeeds
but the success post_back itself raises at the network level, the raise is
caught by the generic except clause of do_import, which posts a failure
payload with kind unknown_error — so the task yields two payloads, a
success record and a failure record, not exactly one and not
success-only. -/
theorem claim_C6_counterexample :
    doImport ⟨none, none, none, none, none, true⟩ =
      [Payload.success, Payload.failure "unknown_error"] ∧
    Payload.failure "unknown_error" ∈
      doImport ⟨none, none, none, none, none, true⟩ ∧
    (doImport ⟨none, none, none, none, none, true⟩).length ≠ 1 := by
  refine ⟨rfl, by decide, by decide⟩

/-- Claim C6 (amended): do_import posts exactly one payload per task — a
single failure record when any stage raises, the single success record
when all stages and the success post succeed — except that when all
stages succeed and the success post itself raises, the generic handler
additionally posts, best-effort, a failure payload with kind
unknown_error after the success attempt. -/
theorem claim_C6 (w : DoImportWorld) :
    (∀ e, firstStageExn w = some e →
        doImport w = [Payload.failure (exnPayloadErr e)]) ∧
    (firstStageExn w = none → w.successPostRaises = false →
        doImport w = [Payload.success]) ∧
    (firstStageExn w = none → w.successPostRaises = true →
        doImport w = [Payload.success, Payload.failure "unknown_error"]) := by
  obtain ⟨g, q, b, gi, a, sp⟩ := w
  cases g <;> cases q <;> cases b <;> cases gi <;> cases a <;> cases sp <;>
    simp [firstStageExn, tryBody, doImport, exnPayloadErr]

/-- Witness for claim C6: a download failure in the first stage posts the
single srpm_download_failed payload. -/
theorem claim_C6_witness :
    doImport ⟨some PipeExn.pkgDownloadExn, none, none, none, none, false⟩ =
      [Payload.failure "srpm_download_failed"] :=
  (claim_C6 ⟨some PipeExn.pkgDownloadExn, none, none, none, none, false⟩).1
    PipeExn.pkgDownloadExn rfl

/-- Claim C7: provider selection maps SRPM_LINK and SRPM_UPLOAD to
SrpmUrlProvider, GIT_AND_TITO to GitAndTitoProvider and GIT_AND_MOCK to
GitAndMockProvider, and raises the malformed-task PackageImportException
on every other source-type value, never falling back to a default
provider. -/
theorem claim_C7 :
    selectProvider SourceType.SRPM_LINK = Except.ok ProviderKind.srpmUrlProvider ∧
    selectProvider SourceType.SRPM_UPLOAD = Except.ok ProviderKind.srpmUrlProvider ∧
    selectProvider SourceType.GIT_AND_TITO = Except.ok ProviderKind.gitAndTitoProvider ∧
    selectProvider SourceType.GIT_AND_MOCK = Except.ok ProviderKind.gitAndMockProvider ∧
    (∀ t : Int, t ≠ SourceType.SRPM_LINK → t ≠ SourceType.SRPM_UPLOAD →
      t ≠ SourceType.GIT_AND_TITO → t ≠ SourceType.GIT_AND_MOCK →
      selectProvider t = Except.error ()) := by
  refine ⟨rfl, rfl, rfl, rfl, ?_⟩
  intro t h1 h2 h3 h4
  simp [selectProvider, h1, h2, h3, h4]

/-- Witness for claim C7: the unknown source type 7 is rejected. -/
theorem claim_C7_witness : selectProvider 7 = Except.error () :=
  claim_C7.2.2.2.2 7 (by decide) (by decide) (by decide) (by decide)

/-- Helper for the loop: whether the loop is still running after the fuel
does not depend on the polled tasks or their outcomes. -/
theorem runLoop_isSome_congr : ∀ (fuel : Nat) (stop : Nat → Bool)
    (polls polls' : Nat → Option DoImportWorld) (i : Nat),
    (runLoop fuel stop polls i).isSome = (runLoop fuel stop polls' i).isSome := by
  intro fuel
  induction fuel with
  | zero => intro stop polls polls' i; rfl
  | succ f ih =>
    intro stop polls polls' i
    unfold runLoop
    by_cases hstop : stop i = true
    · simp [hstop]
    · simp [hstop, Option.isSome_map, ih stop polls polls' (i + 1)]

/-- Helper for the loop: without a stop request the loop never halts. -/
theorem runLoop_none_of_no_stop : ∀ (fuel : Nat) (stop : Nat → Bool)
    (polls : Nat → Option DoImportWorld) (i : Nat),
    (∀ j, stop j = false) → runLoop fuel stop polls i = none := by
  intro fuel
  induction fuel with
  | zero => intro stop polls i hstop; rfl
  | succ f ih =>
    intro stop polls i hstop
    unfold runLoop
    simp [hstop i, ih stop polls (i + 1) hstop]

/-- Claim C8: every exception escaping the try block of do_import —
whatever its class — is caught by one except clause and turned into the
posting of the corresponding failure payload (the generic clause posting
unknown_error), so do_import always returns normally; the polling loop
halts exactly on a stop request: it halts immediately when one is
pending, halting never depends on the polled tasks or their outcomes, and
without a stop request it never halts. -/
theorem claim_C8 :
    (∀ w e, (tryBody w).2 = some e →
        doImport w = (tryBody w).1 ++ [Payload.failure (exnPayloadErr e)]) ∧
    exnPayloadErr PipeExn.otherExn = "unknown_error" ∧
    (∀ fuel stop polls i, stop i = true →
        runLoop (fuel + 1) stop polls i = some []) ∧
    (∀ (fuel : Nat) (stop : Nat → Bool)
        (polls polls' : Nat → Option DoImportWorld) (i : Nat),
        (runLoop fuel stop polls i).isSome = (runLoop fuel stop polls' i).isSome) ∧
    (∀ fuel stop polls i, (∀ j, stop j = false) →
        runLoop fuel stop polls i = none) := by
  refine ⟨?_, rfl, ?_, runLoop_isSome_congr, runLoop_none_of_no_stop⟩
  · intro w e h
    unfold doImport
    cases ht : tryBody w with
    | mk ps oe =>
      rw [ht] at h
      simp only at h
      subst h
      rfl
  · intro fuel stop polls i h
    unfold runLoop
    simp [h]

/-- Witness for claim C8: an unanticipated exception in the query stage
yields the unknown_error failure payload, and the loop, never asked to
stop, is still running after three iterations over failing tasks. -/
theorem claim_C8_witness :
    doImport ⟨none, some PipeExn.otherExn, none, none, none, false⟩ =
      [] ++ [Payload.failure (exnPayloadErr PipeExn.otherExn)] ∧
    runLoop 3 (fun _ => false)
      (fun _ => some ⟨some PipeExn.pkgImportExn, none, none, none, none, false⟩)
      0 = none :=
  ⟨claim_C8.1 ⟨none, some PipeExn.otherExn, none, none, none, false⟩
      PipeExn.otherExn rfl,
   claim_C8.2.2.2.2 3 (fun _ => false)
      (fun _ => some ⟨some PipeExn.pkgImportExn, none, none, none, none, false⟩)
      0 (fun _ => rfl)⟩

/-- Helper: the stages following the payload download only ever emit
sandbox invocations. -/
theorem produceRestEvents_all_sandbox (w : CustomWorld) :
    (produceRestEvents w).1.all isSandboxInv = true := by
  unfold produceRestEvents
  by_cases hp : w.prepOk = true <;> by_cases hc : w.copyoutOk = true <;>
    by_cases hs : w.scrubOk = true <;> by_cases hb : w.buildSrpmOk = true <;>
      simp [hp, hc, hs, hb, isSandboxInv]

/-- Claim C9, as stated, is refuted: the claim makes every non-2xx
response abort the download, but raise_for_status raises only for the
4xx/5xx ranges.  A 304 response is not 2xx, yet produce_srpm continues
and invokes the sandboxed source-preparation tool. -/
theorem claim_C9_counterexample :
    ¬(200 ≤ 304 ∧ 304 < 300) ∧
    (produceSrpm ⟨true, FetchOutcome.response 304, true, true, true, true⟩).2 =
      none ∧
    CEvent.sandboxInvocation "copr-sources-custom" ∈
      (produceSrpm ⟨true, FetchOutcome.response 304, true, true, true, true⟩).1 := by
  refine ⟨by decide, rfl, by decide⟩

/-- Claim C9 (amended): when a webhook payload URL is present, a
transport failure or a 4xx/5xx response (the raise_for_status range)
aborts produce_srpm with the download-class error before any sandbox
invocation — the trace then holds only the configuration write; when the
download passes, it completes before the first sandbox invocation: the
trace is the configuration write, then the completed download, then only
sandbox invocations. -/
theorem claim_C9 (w : CustomWorld) (hh : w.hasHookPayload = true) :
    (w.hookFetch = FetchOutcome.transportFailure →
      produceSrpm w = ([CEvent.mockConfigWrite], some CustomErr.downloadTransport)) ∧
    (∀ s, w.hookFetch = FetchOutcome.response s → raiseForStatus s = true →
      produceSrpm w = ([CEvent.mockConfigWrite], some (CustomErr.downloadStatus s))) ∧
    (∀ s, w.hookFetch = FetchOutcome.response s → raiseForStatus s = false →
      (produceSrpm w).1 =
        [CEvent.mockConfigWrite, CEvent.hookDownloadSuccess] ++
          (produceRestEvents w).1 ∧
      (produceRestEvents w).1.all isSandboxInv = true) := by
  refine ⟨?_, ?_, ?_⟩
  · intro hf
    simp [produceSrpm, hh, hf]
  · intro s hf hrs
    simp [produceSrpm, hh, hf, hrs]
  · intro s hf hrs
    exact ⟨by simp [produceSrpm, hh, hf, hrs], produceRestEvents_all_sandbox w⟩

/-- Witness for claim C9: a transport failure of the payload download
aborts before any sandbox invocation. -/
theorem claim_C9_witness :
    produceSrpm ⟨true, FetchOutcome.transportFailure, true, true, true, true⟩ =
      ([CEvent.mockConfigWrite], some CustomErr.downloadTransport) :=
  (claim_C9 ⟨true, FetchOutcome.transportFailure, true, true, true, true⟩ rfl).1 rfl

/-- Claim C10: a poll that fails at the network level, returns an empty
queue, or returns a first job that from_dict cannot decode (missing
field, unparsable payload, unknown source type — all collapsed into the
swallowed exception) makes try_to_obtain_new_task return None, the same
outcome as an empty queue; and a None poll outcome makes the loop
iteration post no payload of any kind. -/
theorem claim_C10 :
    (∀ base, tryToObtainNewTask QueueResp.netError base = none) ∧
    (∀ base, tryToObtainNewTask (QueueResp.builds []) base = none) ∧
    (∀ j rest base, fromDict j base = Except.error () →
      tryToObtainNewTask (QueueResp.builds (j :: rest)) base = none) ∧
    (∀ resp base outcomes, tryToObtainNewTask resp base = none →
      iterationPayloads resp base outcomes = []) := by
  refine ⟨fun base => rfl, fun base => rfl, ?_, ?_⟩
  · intro j rest base h
    simp [tryToObtainNewTask, h]
  · intro resp base outcomes h
    simp [iterationPayloads, h]

/-- Witness for claim C10: a job missing its task_id field decodes to
None. -/
theorem claim_C10_witness :
    tryToObtainNewTask
      (QueueResp.builds
        [⟨none, some "u", some "p", some "br", some 1,
          some (some ⟨none, none, some "http://x/y.src.rpm", none, none,
            none, none⟩)⟩])
      "http://fe" = none :=
  claim_C10.2.2.1
    ⟨none, some "u", some "p", some "br", some 1,
      some (some ⟨none, none, some "http://x/y.src.rpm", none, none,
        none, none⟩)⟩
    [] "http://fe" rfl

end DistGit
